import Mathlib

/-!
Shallow embedding of the NES APU core (`apu.c` / `apu.h`) of the
Apple-Watch-NES-Emulator repository, together with theorems settling the
frozen claims about it.

Machine integers are modelled as `Nat` with explicit `% 2^w` where the C
code's fixed-width conversions matter; `bool` fields are `Bool`; the C
`double` fields (`phase`, `outputFilter`, `sampleCycleRemainder`) are
modelled as `ℚ` — none of the verified claims depends on floating-point
arithmetic, only on those fields being part of the state and being zeroed
on init/reset.  The pthread mutex is pure synchronisation and carries no
observable state, so it is omitted from the state record.  The DMC read
callback (`ApuReadFunc read` plus `void *readContext`) is modelled as an
`Option (Nat → Nat → Nat)` together with a `Nat`-valued context word; the
`uint8_t` return type of the callback is the `% 256` truncation at the
call site.
-/

/-- Truncation to an unsigned 16-bit value, as performed by a C cast to
`uint16_t` of a non-negative value. -/
def u16 (n : Nat) : Nat := n % 65536

/-- Unsigned 16-bit subtraction `(uint16_t)(a - b)` (operands promoted to
`int`, result converted back to `uint16_t`, i.e. reduced mod 2^16). -/
def u16sub (a b : Nat) : Nat := (((a : Int) - (b : Int)) % 65536).toNat

/-- `PulseChannel` struct from `apu.h`. -/
structure PulseChannel where
  control : Nat
  timer : Nat
  lengthCounter : Nat
  enabled : Bool
  phase : ℚ
  envDivider : Nat
  envDecay : Nat
  envStart : Bool
  sweepDivider : Nat
  sweepPeriod : Nat
  sweepShift : Nat
  sweepEnabled : Bool
  sweepNegate : Bool
  sweepReload : Bool
  sweepMute : Bool
  sweepOnesComplement : Bool
  deriving DecidableEq, Repr

/-- `TriangleChannel` struct from `apu.h`. -/
structure TriangleChannel where
  control : Nat
  timer : Nat
  timerCounter : Nat
  lengthCounter : Nat
  enabled : Bool
  linearCounter : Nat
  linearReload : Nat
  linearControl : Bool
  linearReloadFlag : Bool
  sequencePos : Nat
  deriving DecidableEq, Repr

/-- `NoiseChannel` struct from `apu.h`. -/
structure NoiseChannel where
  control : Nat
  timer : Nat
  timerCounter : Nat
  lengthCounter : Nat
  enabled : Bool
  lfsr : Nat
  envDivider : Nat
  envDecay : Nat
  envStart : Bool
  deriving DecidableEq, Repr

/-- `DMCChannel` struct from `apu.h`. -/
structure DMCChannel where
  control : Nat
  directLoad : Nat
  sampleAddress : Nat
  sampleLength : Nat
  currentAddress : Nat
  bytesRemaining : Nat
  shiftRegister : Nat
  bitCount : Nat
  outputLevel : Nat
  enabled : Bool
  irqEnabled : Bool
  loop : Bool
  sampleBufferEmpty : Bool
  sampleBuffer : Nat
  timer : Nat
  timerCounter : Nat
  deriving DecidableEq, Repr

/-- `APU` aggregate struct from `apu.h` (mutex omitted; the read callback
and its `void *` context are the last two fields). -/
structure APU where
  pulse1 : PulseChannel
  pulse2 : PulseChannel
  triangle : TriangleChannel
  noise : NoiseChannel
  dmc : DMCChannel
  frameCounterCycle : Nat
  frameCounterMode : Bool
  frameIrqInhibit : Bool
  outputFilter : ℚ
  sampleCycleRemainder : ℚ
  read : Option (Nat → Nat → Nat)
  readContext : Nat

/-- `apu_length_table` from `apu.c`. -/
def apu_length_table : List Nat :=
  [10, 254, 20, 2, 40, 4, 80, 6,
   160, 8, 60, 10, 14, 12, 26, 14,
   12, 16, 24, 18, 48, 20, 96, 22,
   192, 24, 72, 26, 16, 28, 32, 30]

/-- `noise_period_table` from `apu.c`. -/
def noise_period_table : List Nat :=
  [4, 8, 16, 32, 64, 96, 128, 160,
   202, 254, 380, 508, 762, 1016, 2034, 4068]

/-- `dmc_rate_table` from `apu.c`. -/
def dmc_rate_table : List Nat :=
  [428, 380, 340, 320, 286, 254, 226, 214,
   190, 160, 142, 128, 106, 85, 72, 54]

/-- `triangle_sequence` from `apu.c`. -/
def triangle_sequence : List Nat :=
  [15, 14, 13, 12, 11, 10, 9, 8,
   7, 6, 5, 4, 3, 2, 1, 0,
   0, 1, 2, 3, 4, 5, 6, 7,
   8, 9, 10, 11, 12, 13, 14, 15]

/-- `pulse_write_control` from `apu.c`. -/
def pulse_write_control (ch : PulseChannel) (data : Nat) : PulseChannel :=
  { ch with control := data, envStart := true }

/-- `pulse_write_sweep` from `apu.c`. -/
def pulse_write_sweep (ch : PulseChannel) (data : Nat) : PulseChannel :=
  { ch with
    sweepEnabled := data &&& 0x80 ≠ 0
    sweepPeriod := (data >>> 4) &&& 0x07
    sweepNegate := data &&& 0x08 ≠ 0
    sweepShift := data &&& 0x07
    sweepReload := true }

/-- `pulse_write_timer_low` from `apu.c`. -/
def pulse_write_timer_low (ch : PulseChannel) (data : Nat) : PulseChannel :=
  { ch with timer := u16 ((ch.timer &&& 0xFF00) ||| data) }

/-- `pulse_write_timer_high` from `apu.c`. -/
def pulse_write_timer_high (ch : PulseChannel) (data : Nat) : PulseChannel :=
  { ch with
    timer := u16 ((ch.timer &&& 0x00FF) ||| ((data &&& 0x07) <<< 8))
    lengthCounter := apu_length_table.getD ((data >>> 3) &&& 0x1F) 0
    envStart := true }

/-- `pulse_set_enabled` from `apu.c`. -/
def pulse_set_enabled (ch : PulseChannel) (enabled : Bool) : PulseChannel :=
  if enabled then { ch with enabled := enabled }
  else { ch with enabled := enabled, lengthCounter := 0 }

/-- `pulse_tick_length` from `apu.c`. -/
def pulse_tick_length (ch : PulseChannel) : PulseChannel :=
  let lengthHalt := ch.control &&& 0x20 ≠ 0
  if ¬lengthHalt ∧ ch.lengthCounter > 0 then
    { ch with lengthCounter := ch.lengthCounter - 1 }
  else ch

/-- `pulse_tick_envelope` from `apu.c`. -/
def pulse_tick_envelope (ch : PulseChannel) : PulseChannel :=
  let volume := ch.control &&& 0x0F
  let loop := ch.control &&& 0x20 ≠ 0
  if ch.envStart then
    { ch with envStart := false, envDecay := 15, envDivider := volume }
  else if ch.envDivider = 0 then
    if ch.envDecay > 0 then
      { ch with envDivider := volume, envDecay := ch.envDecay - 1 }
    else if loop then
      { ch with envDivider := volume, envDecay := 15 }
    else
      { ch with envDivider := volume }
  else
    { ch with envDivider := ch.envDivider - 1 }

/-- The sweep unit's target period, as computed inside `pulse_apply_sweep`
in `apu.c`: `change = timer >> shift`; negate mode subtracts `change`
(plus one more under pulse 1's one's-complement convention) in 16-bit
arithmetic, non-negate mode adds it. -/
def pulse_sweep_target (timer shift : Nat) (negate ones : Bool) : Nat :=
  let change := timer >>> shift
  if negate then
    u16sub timer (change + (if ones then 1 else 0))
  else
    u16 (timer + change)

/-- `pulse_apply_sweep` from `apu.c`. -/
def pulse_apply_sweep (ch : PulseChannel) : PulseChannel :=
  if ¬ch.sweepEnabled ∨ ch.sweepShift = 0 then
    { ch with sweepMute := false }
  else
    let target := pulse_sweep_target ch.timer ch.sweepShift ch.sweepNegate ch.sweepOnesComplement
    if target > 0x7FF ∨ ch.timer < 8 then { ch with sweepMute := true }
    else { ch with sweepMute := false, timer := target }

/-- `pulse_tick_sweep` from `apu.c`. -/
def pulse_tick_sweep (ch : PulseChannel) : PulseChannel :=
  if ch.sweepReload then
    let ch := { ch with sweepReload := false, sweepDivider := ch.sweepPeriod }
    if ch.sweepEnabled then pulse_apply_sweep ch else ch
  else if ch.sweepDivider = 0 then
    let ch := { ch with sweepDivider := ch.sweepPeriod }
    if ch.sweepEnabled then pulse_apply_sweep ch else ch
  else
    { ch with sweepDivider := ch.sweepDivider - 1 }

/-- `triangle_write_control` from `apu.c`. -/
def triangle_write_control (ch : TriangleChannel) (data : Nat) : TriangleChannel :=
  { ch with
    linearControl := data &&& 0x80 ≠ 0
    linearReload := data &&& 0x7F }

/-- `triangle_write_timer_low` from `apu.c`. -/
def triangle_write_timer_low (ch : TriangleChannel) (data : Nat) : TriangleChannel :=
  { ch with timer := u16 ((ch.timer &&& 0xFF00) ||| data) }

/-- `triangle_write_timer_high` from `apu.c`. -/
def triangle_write_timer_high (ch : TriangleChannel) (data : Nat) : TriangleChannel :=
  { ch with
    timer := u16 ((ch.timer &&& 0x00FF) ||| ((data &&& 0x07) <<< 8))
    lengthCounter := apu_length_table.getD ((data >>> 3) &&& 0x1F) 0
    linearReloadFlag := true }

/-- `triangle_set_enabled` from `apu.c`. -/
def triangle_set_enabled (ch : TriangleChannel) (enabled : Bool) : TriangleChannel :=
  if enabled then { ch with enabled := enabled }
  else { ch with enabled := enabled, lengthCounter := 0 }

/-- `triangle_tick_length` from `apu.c`. -/
def triangle_tick_length (ch : TriangleChannel) : TriangleChannel :=
  if ¬ch.linearControl ∧ ch.lengthCounter > 0 then
    { ch with lengthCounter := ch.lengthCounter - 1 }
  else ch

/-- `triangle_tick_linear` from `apu.c`. -/
def triangle_tick_linear (ch : TriangleChannel) : TriangleChannel :=
  let ch :=
    if ch.linearReloadFlag then { ch with linearCounter := ch.linearReload }
    else if ch.linearCounter > 0 then { ch with linearCounter := ch.linearCounter - 1 }
    else ch
  if ¬ch.linearControl then { ch with linearReloadFlag := false } else ch

/-- `triangle_tick_timer` from `apu.c`. -/
def triangle_tick_timer (ch : TriangleChannel) : TriangleChannel :=
  if ch.timerCounter = 0 then
    let ch := { ch with timerCounter := ch.timer }
    if ch.lengthCounter > 0 ∧ ch.linearCounter > 0 then
      { ch with sequencePos := (ch.sequencePos + 1) &&& 0x1F }
    else ch
  else
    { ch with timerCounter := ch.timerCounter - 1 }

/-- `noise_write_control` from `apu.c`. -/
def noise_write_control (ch : NoiseChannel) (data : Nat) : NoiseChannel :=
  { ch with control := data, envStart := true }

/-- `noise_write_period` from `apu.c`. -/
def noise_write_period (ch : NoiseChannel) (data : Nat) : NoiseChannel :=
  { ch with timer := noise_period_table.getD (data &&& 0x0F) 0 }

/-- `noise_write_length` from `apu.c`. -/
def noise_write_length (ch : NoiseChannel) (data : Nat) : NoiseChannel :=
  { ch with
    lengthCounter := apu_length_table.getD ((data >>> 3) &&& 0x1F) 0
    envStart := true }

/-- `noise_set_enabled` from `apu.c`. -/
def noise_set_enabled (ch : NoiseChannel) (enabled : Bool) : NoiseChannel :=
  if enabled then { ch with enabled := enabled }
  else { ch with enabled := enabled, lengthCounter := 0 }

/-- `noise_tick_length` from `apu.c`. -/
def noise_tick_length (ch : NoiseChannel) : NoiseChannel :=
  let lengthHalt := ch.control &&& 0x20 ≠ 0
  if ¬lengthHalt ∧ ch.lengthCounter > 0 then
    { ch with lengthCounter := ch.lengthCounter - 1 }
  else ch

/-- `noise_tick_envelope` from `apu.c`. -/
def noise_tick_envelope (ch : NoiseChannel) : NoiseChannel :=
  let volume := ch.control &&& 0x0F
  let loop := ch.control &&& 0x20 ≠ 0
  if ch.envStart then
    { ch with envStart := false, envDecay := 15, envDivider := volume }
  else if ch.envDivider = 0 then
    if ch.envDecay > 0 then
      { ch with envDivider := volume, envDecay := ch.envDecay - 1 }
    else if loop then
      { ch with envDivider := volume, envDecay := 15 }
    else
      { ch with envDivider := volume }
  else
    { ch with envDivider := ch.envDivider - 1 }

/-- The LFSR update performed by `noise_tick_timer` when the timer counter
reaches zero: feedback is bit 0 XOR bit 6 (short mode) or bit 0 XOR bit 1
(long mode), the register shifts right one place and the feedback enters
bit 14; the result is truncated to 16 bits as by the C cast. -/
def noise_lfsr_step (mode : Bool) (lfsr : Nat) : Nat :=
  let feedback :=
    if mode then ((lfsr &&& 0x0001) ^^^ ((lfsr >>> 6) &&& 0x0001)) &&& 0x0001
    else ((lfsr &&& 0x0001) ^^^ ((lfsr >>> 1) &&& 0x0001)) &&& 0x0001
  u16 ((lfsr >>> 1) ||| (feedback <<< 14))

/-- `noise_tick_timer` from `apu.c`. -/
def noise_tick_timer (ch : NoiseChannel) : NoiseChannel :=
  if ch.timerCounter = 0 then
    let mode := ch.control &&& 0x80 ≠ 0
    { ch with timerCounter := ch.timer, lfsr := noise_lfsr_step mode ch.lfsr }
  else
    { ch with timerCounter := ch.timerCounter - 1 }

/-- `dmc_restart` from `apu.c`. -/
def dmc_restart (ch : DMCChannel) : DMCChannel :=
  { ch with currentAddress := ch.sampleAddress, bytesRemaining := ch.sampleLength }

/-- `dmc_set_enabled` from `apu.c`. -/
def dmc_set_enabled (ch : DMCChannel) (enabled : Bool) : DMCChannel :=
  if ¬enabled then { ch with enabled := enabled, bytesRemaining := 0 }
  else if ch.bytesRemaining = 0 then dmc_restart { ch with enabled := enabled }
  else { ch with enabled := enabled }

/-- The body of `dmc_fetch_sample` from `apu.c` once the fetched byte `b`
is fixed (the byte is the callback's result truncated to `uint8_t`, or 0
when no callback is bound): fill the one-byte buffer, advance the address
with the 0xFFFF→0x8000 wrap, decrement the remaining-byte count, and
restart the sample on exhaustion when looping. -/
def dmc_fetch_with (ch : DMCChannel) (b : Nat) : DMCChannel :=
  if ¬ch.sampleBufferEmpty ∨ ch.bytesRemaining = 0 then ch
  else
    let ch := { ch with sampleBuffer := b, sampleBufferEmpty := false }
    let ch := { ch with currentAddress := u16 (ch.currentAddress + 1) }
    let ch := if ch.currentAddress = 0 then { ch with currentAddress := 0x8000 } else ch
    let ch :=
      if ch.bytesRemaining > 0 then { ch with bytesRemaining := ch.bytesRemaining - 1 }
      else ch
    if ch.bytesRemaining = 0 then
      if ch.loop then dmc_restart ch else ch
    else ch

/-- `dmc_fetch_sample` from `apu.c` (operates on the whole `APU` because
it consults the read callback). -/
def dmc_fetch_sample (apu : APU) : APU :=
  let b :=
    match apu.read with
    | some f => f apu.readContext apu.dmc.currentAddress % 256
    | none => 0
  { apu with dmc := dmc_fetch_with apu.dmc b }

/-- The single-bit delta step inside `dmc_tick_timer` from `apu.c`
(executed when `bitCount > 0`): ±2 on the output level with clamps at
125 / 2, then shift the register and consume one bit. -/
def dmc_shift_bit (ch : DMCChannel) : DMCChannel :=
  let ch :=
    if ch.shiftRegister &&& 0x01 ≠ 0 then
      if ch.outputLevel ≤ 125 then { ch with outputLevel := (ch.outputLevel + 2) % 256 }
      else ch
    else
      if ch.outputLevel ≥ 2 then { ch with outputLevel := ch.outputLevel - 2 }
      else ch
  { ch with shiftRegister := ch.shiftRegister >>> 1, bitCount := ch.bitCount - 1 }

/-- `dmc_tick_timer` from `apu.c` (the DMC-channel part; the function's
`APU *` parameter is only used to reach `apu->dmc`). -/
def dmc_tick_timer (ch : DMCChannel) : DMCChannel :=
  if ch.timerCounter = 0 then
    let ch := { ch with timerCounter := ch.timer }
    if ch.bitCount = 0 then
      if ¬ch.sampleBufferEmpty then
        dmc_shift_bit
          { ch with shiftRegister := ch.sampleBuffer, sampleBufferEmpty := true, bitCount := 8 }
      else ch
    else
      dmc_shift_bit ch
  else
    { ch with timerCounter := ch.timerCounter - 1 }

/-- The power-on state produced by `apu_init` in `apu.c`: everything is
zeroed (`memset`), then pulse 1 is put in one's-complement sweep mode, the
noise LFSR is seeded to 1, the DMC read-ahead buffer is marked empty, and
the filter and remainder are zeroed.  `apu_init` also leaves the read
callback NULL (`none`). -/
def apu_power_on : APU :=
  { pulse1 :=
      { control := 0, timer := 0, lengthCounter := 0, enabled := false, phase := 0
        envDivider := 0, envDecay := 0, envStart := false
        sweepDivider := 0, sweepPeriod := 0, sweepShift := 0
        sweepEnabled := false, sweepNegate := false, sweepReload := false
        sweepMute := false, sweepOnesComplement := true }
    pulse2 :=
      { control := 0, timer := 0, lengthCounter := 0, enabled := false, phase := 0
        envDivider := 0, envDecay := 0, envStart := false
        sweepDivider := 0, sweepPeriod := 0, sweepShift := 0
        sweepEnabled := false, sweepNegate := false, sweepReload := false
        sweepMute := false, sweepOnesComplement := false }
    triangle :=
      { control := 0, timer := 0, timerCounter := 0, lengthCounter := 0, enabled := false
        linearCounter := 0, linearReload := 0, linearControl := false
        linearReloadFlag := false, sequencePos := 0 }
    noise :=
      { control := 0, timer := 0, timerCounter := 0, lengthCounter := 0, enabled := false
        lfsr := 1, envDivider := 0, envDecay := 0, envStart := false }
    dmc :=
      { control := 0, directLoad := 0, sampleAddress := 0, sampleLength := 0
        currentAddress := 0, bytesRemaining := 0, shiftRegister := 0, bitCount := 0
        outputLevel := 0, enabled := false, irqEnabled := false, loop := false
        sampleBufferEmpty := true, sampleBuffer := 0, timer := 0, timerCounter := 0 }
    frameCounterCycle := 0
    frameCounterMode := false
    frameIrqInhibit := false
    outputFilter := 0
    sampleCycleRemainder := 0
    read := none
    readContext := 0 }

/-- `apu_reset` from `apu.c`: save the read callback and context, zero the
whole aggregate and redo the `apu_init` assignments, then restore the
callback binding. -/
def apu_reset (apu : APU) : APU :=
  { apu_power_on with read := apu.read, readContext := apu.readContext }

/-- `apu_set_read_callback` from `apu.c`. -/
def apu_set_read_callback (apu : APU) (read : Option (Nat → Nat → Nat))
    (context : Nat) : APU :=
  { apu with read := read, readContext := context }

/-- `apu_quarter_frame` from `apu.c`. -/
def apu_quarter_frame (apu : APU) : APU :=
  let apu := { apu with pulse1 := pulse_tick_envelope apu.pulse1 }
  let apu := { apu with pulse2 := pulse_tick_envelope apu.pulse2 }
  let apu := { apu with noise := noise_tick_envelope apu.noise }
  { apu with triangle := triangle_tick_linear apu.triangle }

/-- `apu_half_frame` from `apu.c`. -/
def apu_half_frame (apu : APU) : APU :=
  let apu := { apu with pulse1 := pulse_tick_length apu.pulse1 }
  let apu := { apu with pulse2 := pulse_tick_length apu.pulse2 }
  let apu := { apu with triangle := triangle_tick_length apu.triangle }
  let apu := { apu with noise := noise_tick_length apu.noise }
  let apu := { apu with pulse1 := pulse_tick_sweep apu.pulse1 }
  { apu with pulse2 := pulse_tick_sweep apu.pulse2 }

/-- `apu_cpu_write` from `apu.c` (the mutex acquire/release brackets are
pure synchronisation and drop out of the sequential model). -/
def apu_cpu_write (apu : APU) (addr : Nat) (data : Nat) : APU :=
  if addr = 0x4000 then { apu with pulse1 := pulse_write_control apu.pulse1 data }
  else if addr = 0x4001 then { apu with pulse1 := pulse_write_sweep apu.pulse1 data }
  else if addr = 0x4002 then { apu with pulse1 := pulse_write_timer_low apu.pulse1 data }
  else if addr = 0x4003 then { apu with pulse1 := pulse_write_timer_high apu.pulse1 data }
  else if addr = 0x4004 then { apu with pulse2 := pulse_write_control apu.pulse2 data }
  else if addr = 0x4005 then { apu with pulse2 := pulse_write_sweep apu.pulse2 data }
  else if addr = 0x4006 then { apu with pulse2 := pulse_write_timer_low apu.pulse2 data }
  else if addr = 0x4007 then { apu with pulse2 := pulse_write_timer_high apu.pulse2 data }
  else if addr = 0x4008 then { apu with triangle := triangle_write_control apu.triangle data }
  else if addr = 0x400A then { apu with triangle := triangle_write_timer_low apu.triangle data }
  else if addr = 0x400B then { apu with triangle := triangle_write_timer_high apu.triangle data }
  else if addr = 0x400C then { apu with noise := noise_write_control apu.noise data }
  else if addr = 0x400E then
    let apu := { apu with noise := noise_write_period apu.noise data }
    { apu with noise :=
        { apu.noise with control := (apu.noise.control &&& 0x7F) ||| (data &&& 0x80) } }
  else if addr = 0x400F then { apu with noise := noise_write_length apu.noise data }
  else if addr = 0x4010 then
    { apu with dmc :=
        { apu.dmc with
          control := data
          irqEnabled := data &&& 0x80 ≠ 0
          loop := data &&& 0x40 ≠ 0
          timer := dmc_rate_table.getD (data &&& 0x0F) 0 } }
  else if addr = 0x4011 then
    { apu with dmc := { apu.dmc with directLoad := data &&& 0x7F, outputLevel := data &&& 0x7F } }
  else if addr = 0x4012 then
    { apu with dmc := { apu.dmc with sampleAddress := u16 (0xC000 ||| (data <<< 6)) } }
  else if addr = 0x4013 then
    { apu with dmc := { apu.dmc with sampleLength := u16 (data * 16 + 1) } }
  else if addr = 0x4015 then
    let apu := { apu with pulse1 := pulse_set_enabled apu.pulse1 (data &&& 0x01 ≠ 0) }
    let apu := { apu with pulse2 := pulse_set_enabled apu.pulse2 (data &&& 0x02 ≠ 0) }
    let apu := { apu with triangle := triangle_set_enabled apu.triangle (data &&& 0x04 ≠ 0) }
    let apu := { apu with noise := noise_set_enabled apu.noise (data &&& 0x08 ≠ 0) }
    { apu with dmc := dmc_set_enabled apu.dmc (data &&& 0x10 ≠ 0) }
  else if addr = 0x4017 then
    let apu :=
      { apu with
        frameCounterMode := data &&& 0x80 ≠ 0
        frameIrqInhibit := data &&& 0x40 ≠ 0
        frameCounterCycle := 0 }
    if apu.frameCounterMode then
      let apu := { apu with pulse1 := pulse_tick_length apu.pulse1 }
      let apu := { apu with pulse2 := pulse_tick_length apu.pulse2 }
      let apu := { apu with triangle := triangle_tick_length apu.triangle }
      let apu := { apu with noise := noise_tick_length apu.noise }
      let apu := { apu with pulse1 := pulse_tick_sweep apu.pulse1 }
      let apu := { apu with pulse2 := pulse_tick_sweep apu.pulse2 }
      let apu := { apu with pulse1 := pulse_tick_envelope apu.pulse1 }
      let apu := { apu with pulse2 := pulse_tick_envelope apu.pulse2 }
      let apu := { apu with noise := noise_tick_envelope apu.noise }
      { apu with triangle := triangle_tick_linear apu.triangle }
    else apu
  else apu

/-- `apu_read_status` from `apu.c`: the returned byte paired with the
state the function leaves behind (it mutates nothing). -/
def apu_read_status (apu : APU) : Nat × APU :=
  let value := 0
  let value := if apu.pulse1.enabled ∧ apu.pulse1.lengthCounter > 0 then value ||| 0x01 else value
  let value := if apu.pulse2.enabled ∧ apu.pulse2.lengthCounter > 0 then value ||| 0x02 else value
  let value := if apu.triangle.enabled ∧ apu.triangle.lengthCounter > 0 then value ||| 0x04 else value
  let value := if apu.noise.enabled ∧ apu.noise.lengthCounter > 0 then value ||| 0x08 else value
  let value := if apu.dmc.bytesRemaining > 0 then value ||| 0x10 else value
  (value, apu)

/-- The per-cycle timer ticks and DMC fetch at the end of each iteration
of the loop in `apu_step_cycles_unlocked` in `apu.c`. -/
def apu_tick_timers (apu : APU) : APU :=
  let apu := { apu with triangle := triangle_tick_timer apu.triangle }
  let apu := { apu with noise := noise_tick_timer apu.noise }
  let apu := { apu with dmc := dmc_tick_timer apu.dmc }
  dmc_fetch_sample apu

/-- One iteration of the loop body of `apu_step_cycles_unlocked` in
`apu.c`: increment the frame cycle counter, dispatch the frame-sequencer
events for the mode in effect, then run the per-cycle timer ticks. -/
def apu_step_one (apu : APU) : APU :=
  let apu := { apu with frameCounterCycle := apu.frameCounterCycle + 1 }
  let apu :=
    if apu.frameCounterMode = false then
      if apu.frameCounterCycle = 3729 then apu_quarter_frame apu
      else if apu.frameCounterCycle = 7457 then apu_half_frame (apu_quarter_frame apu)
      else if apu.frameCounterCycle = 11186 then apu_quarter_frame apu
      else if apu.frameCounterCycle = 14915 then
        { apu_half_frame (apu_quarter_frame apu) with frameCounterCycle := 0 }
      else apu
    else
      if apu.frameCounterCycle = 3729 then apu_quarter_frame apu
      else if apu.frameCounterCycle = 7457 then apu_half_frame (apu_quarter_frame apu)
      else if apu.frameCounterCycle = 11186 then apu_quarter_frame apu
      else if apu.frameCounterCycle = 14915 then apu_half_frame (apu_quarter_frame apu)
      else if apu.frameCounterCycle = 18641 then { apu with frameCounterCycle := 0 }
      else apu
  apu_tick_timers apu

/-- `apu_step_cycles_unlocked` from `apu.c`: `cycles` iterations of the
loop body. -/
def apu_step_cycles (apu : APU) : Nat → APU
  | 0 => apu
  | n + 1 => apu_step_cycles (apu_step_one apu) n

theorem pulse_apply_sweep_eq (ch : PulseChannel)
    (hen : ch.sweepEnabled = true) (hsh : ch.sweepShift ≠ 0) :
    pulse_apply_sweep ch =
      if pulse_sweep_target ch.timer ch.sweepShift ch.sweepNegate ch.sweepOnesComplement > 0x7FF ∨
          ch.timer < 8 then
        { ch with sweepMute := true }
      else
        { ch with sweepMute := false
                  timer := pulse_sweep_target ch.timer ch.sweepShift ch.sweepNegate
                    ch.sweepOnesComplement } := by
  unfold pulse_apply_sweep
  simp [hen, hsh]

/-- Workhorse lemma: a sweep tick that recomputes the target (enabled
sweep, nonzero shift, reload pending or divider at zero) sets the mute
flag iff the target is above 0x7FF or the pre-update timer is below 8,
and commits the target to the timer exactly when not muted. -/
theorem pulse_tick_sweep_recompute (ch : PulseChannel)
    (hen : ch.sweepEnabled = true) (hsh : ch.sweepShift ≠ 0)
    (htrig : ch.sweepReload = true ∨ ch.sweepDivider = 0) :
    ((pulse_tick_sweep ch).sweepMute = true ↔
      (pulse_sweep_target ch.timer ch.sweepShift ch.sweepNegate ch.sweepOnesComplement > 0x7FF ∨
        ch.timer < 8)) ∧
    (pulse_tick_sweep ch).timer =
      (if pulse_sweep_target ch.timer ch.sweepShift ch.sweepNegate ch.sweepOnesComplement > 0x7FF ∨
          ch.timer < 8 then ch.timer
       else pulse_sweep_target ch.timer ch.sweepShift ch.sweepNegate ch.sweepOnesComplement) := by
  unfold pulse_tick_sweep
  rcases htrig with h | h
  · rw [if_pos h]
    simp only [hen, if_true]
    rw [pulse_apply_sweep_eq _ (by simp) (by simpa using hsh)]
    split <;> simp_all
  · by_cases hr : ch.sweepReload = true
    · rw [if_pos hr]
      simp only [hen, if_true]
      rw [pulse_apply_sweep_eq _ (by simp) (by simpa using hsh)]
      split <;> simp_all
    · rw [if_neg (by simpa using hr), if_pos h]
      simp only [hen, if_true]
      rw [pulse_apply_sweep_eq _ (by simp) (by simpa using hsh)]
      split <;> simp_all

/-- C1: for a pulse channel with sweep enabled and nonzero shift, whenever
the sweep recomputes its target (sweep-tick with the reload flag set, or
with the divider at zero), with `change = timer >> shift` and target
`timer + change` (non-negate) or `timer - change - 1` / `timer - change`
(negate, pulse 1 / pulse 2, 16-bit arithmetic), the sweep-mute flag ends
up set iff `target > 0x7FF` or the pre-update timer is below 8, and the
timer receives the target exactly when the mute flag is not set. -/
theorem C1_pulse_sweep_mute_and_commit (ch : PulseChannel)
    (hen : ch.sweepEnabled = true) (hsh : ch.sweepShift ≠ 0)
    (htrig : ch.sweepReload = true ∨ ch.sweepDivider = 0) :
    ((pulse_tick_sweep ch).sweepMute = true ↔
      (pulse_sweep_target ch.timer ch.sweepShift ch.sweepNegate ch.sweepOnesComplement > 0x7FF ∨
        ch.timer < 8)) ∧
    (pulse_tick_sweep ch).timer =
      (if pulse_sweep_target ch.timer ch.sweepShift ch.sweepNegate ch.sweepOnesComplement > 0x7FF ∨
          ch.timer < 8 then ch.timer
       else pulse_sweep_target ch.timer ch.sweepShift ch.sweepNegate ch.sweepOnesComplement) :=
  pulse_tick_sweep_recompute ch hen hsh htrig

/-- Concrete pulse channel witnessing C1: sweep enabled, shift 2, reload
pending, timer 0x400, non-negate. -/
def c1_pulse : PulseChannel :=
  { apu_power_on.pulse1 with
    sweepEnabled := true
    sweepShift := 2
    sweepReload := true
    timer := 0x400 }

theorem C1_witness :
    c1_pulse.sweepEnabled = true ∧ c1_pulse.sweepShift ≠ 0 ∧
    (((pulse_tick_sweep c1_pulse).sweepMute = true ↔
        (pulse_sweep_target c1_pulse.timer c1_pulse.sweepShift c1_pulse.sweepNegate
            c1_pulse.sweepOnesComplement > 0x7FF ∨
          c1_pulse.timer < 8)) ∧
     (pulse_tick_sweep c1_pulse).timer =
       (if pulse_sweep_target c1_pulse.timer c1_pulse.sweepShift c1_pulse.sweepNegate
            c1_pulse.sweepOnesComplement > 0x7FF ∨ c1_pulse.timer < 8 then c1_pulse.timer
        else pulse_sweep_target c1_pulse.timer c1_pulse.sweepShift c1_pulse.sweepNegate
          c1_pulse.sweepOnesComplement)) :=
  ⟨by decide, by decide,
    C1_pulse_sweep_mute_and_commit c1_pulse (by decide) (by decide) (Or.inl (by decide))⟩

/-- Concrete pulse channel refuting C2 as stated: pulse-2 convention,
sweep enabled, shift 1, negate, reload pending, timer 8.  The computed
target is 4, outside [8, 0x7FF], yet the recomputation does not mute the
channel and changes the timer to 4. -/
def c2_pulse : PulseChannel :=
  { apu_power_on.pulse2 with
    sweepEnabled := true
    sweepShift := 1
    sweepNegate := true
    sweepReload := true
    timer := 8 }

/-- C2 counterexample: a sweep recomputation whose target (4) lies outside
[8, 0x7FF] but which neither mutes the channel nor leaves the timer
unchanged — the code compares only the target against 0x7FF and the
pre-update timer against 8, never the target against 8. -/
theorem C2_counterexample :
    c2_pulse.sweepEnabled = true ∧ c2_pulse.sweepShift ≠ 0 ∧ c2_pulse.sweepReload = true ∧
    (pulse_sweep_target c2_pulse.timer c2_pulse.sweepShift c2_pulse.sweepNegate
        c2_pulse.sweepOnesComplement < 8 ∨
     pulse_sweep_target c2_pulse.timer c2_pulse.sweepShift c2_pulse.sweepNegate
        c2_pulse.sweepOnesComplement > 0x7FF) ∧
    ¬((pulse_tick_sweep c2_pulse).sweepMute = true ∧
      (pulse_tick_sweep c2_pulse).timer = c2_pulse.timer) := by
  decide

/-- C2 (amended): for every pulse channel and every sweep recomputation
(sweep enabled, nonzero shift, reload pending or divider at zero), if the
computed target exceeds 0x7FF or the pre-update timer is below 8, then
the channel is muted and the timer is left unchanged by that
recomputation. -/
theorem C2_amended_sweep_out_of_range_mutes (ch : PulseChannel)
    (hen : ch.sweepEnabled = true) (hsh : ch.sweepShift ≠ 0)
    (htrig : ch.sweepReload = true ∨ ch.sweepDivider = 0)
    (hout : pulse_sweep_target ch.timer ch.sweepShift ch.sweepNegate
        ch.sweepOnesComplement > 0x7FF ∨ ch.timer < 8) :
    (pulse_tick_sweep ch).sweepMute = true ∧ (pulse_tick_sweep ch).timer = ch.timer := by
  obtain ⟨h1, h2⟩ := pulse_tick_sweep_recompute ch hen hsh htrig
  exact ⟨h1.mpr hout, by rw [h2, if_pos hout]⟩

/-- Concrete pulse channel witnessing the amended C2: timer 4 (below 8),
sweep enabled with shift 1 and reload pending. -/
def c2w_pulse : PulseChannel :=
  { apu_power_on.pulse1 with
    sweepEnabled := true
    sweepShift := 1
    sweepReload := true
    timer := 4 }

theorem C2_amended_witness :
    c2w_pulse.sweepEnabled = true ∧ c2w_pulse.sweepShift ≠ 0 ∧ c2w_pulse.timer < 8 ∧
    ((pulse_tick_sweep c2w_pulse).sweepMute = true ∧
     (pulse_tick_sweep c2w_pulse).timer = c2w_pulse.timer) :=
  ⟨by decide, by decide, by decide,
    C2_amended_sweep_out_of_range_mutes c2w_pulse (by decide) (by decide)
      (Or.inl (by decide)) (Or.inr (by decide))⟩

theorem or_ne_zero_left {a b : Nat} (h : a ≠ 0) : a ||| b ≠ 0 := by
  obtain ⟨i, hi⟩ := Nat.ne_zero_implies_bit_true h
  intro hc
  have h2 : (a ||| b).testBit i = false := by rw [hc]; exact Nat.zero_testBit i
  rw [Nat.testBit_or, hi] at h2
  simp at h2

theorem lfsr_core_invariant (l t : Nat) (h0 : l ≠ 0) (hlt : l < 32768) (ht : t ≤ 1)
    (hone : l = 1 → t = 1) :
    u16 ((l >>> 1) ||| (t <<< 14)) ≠ 0 ∧ u16 ((l >>> 1) ||| (t <<< 14)) < 32768 := by
  have hdiv : l >>> 1 = l / 2 := by
    rw [Nat.shiftRight_eq_div_pow]
  have hshl : t <<< 14 = t * 16384 := by
    rw [Nat.shiftLeft_eq]
  have hor : (l >>> 1) ||| (t <<< 14) < 32768 := by
    have h1 : l >>> 1 < 2 ^ 15 := by
      rw [hdiv, show (2:Nat) ^ 15 = 32768 by norm_num]; omega
    have h2 : t <<< 14 < 2 ^ 15 := by
      rw [hshl, show (2:Nat) ^ 15 = 32768 by norm_num]; omega
    have h3 := Nat.or_lt_two_pow h1 h2
    rwa [show (2:Nat) ^ 15 = 32768 by norm_num] at h3
  have hu : u16 ((l >>> 1) ||| (t <<< 14)) = (l >>> 1) ||| (t <<< 14) :=
    Nat.mod_eq_of_lt (by omega)
  rw [hu]
  refine ⟨?_, hor⟩
  rcases Nat.lt_or_ge l 2 with hl2 | hl2
  · have hl1 : l = 1 := by omega
    have ht1 : t = 1 := hone hl1
    subst hl1; subst ht1
    decide
  · have hne : l >>> 1 ≠ 0 := by rw [hdiv]; omega
    exact or_ne_zero_left hne

theorem noise_lfsr_step_invariant (mode : Bool) (l : Nat)
    (h0 : l ≠ 0) (hlt : l < 32768) :
    noise_lfsr_step mode l ≠ 0 ∧ noise_lfsr_step mode l < 32768 := by
  unfold noise_lfsr_step
  cases mode
  · simp only [Bool.false_eq_true, if_false]
    exact lfsr_core_invariant l _ h0 hlt Nat.and_le_right (by intro h; subst h; decide)
  · simp only [if_true]
    exact lfsr_core_invariant l _ h0 hlt Nat.and_le_right (by intro h; subst h; decide)

theorem noise_tick_timer_lfsr_invariant (ch : NoiseChannel)
    (h0 : ch.lfsr ≠ 0) (hlt : ch.lfsr < 32768) :
    (noise_tick_timer ch).lfsr ≠ 0 ∧ (noise_tick_timer ch).lfsr < 32768 := by
  unfold noise_tick_timer
  split
  · exact noise_lfsr_step_invariant _ _ h0 hlt
  · exact ⟨h0, hlt⟩

/-- A write of the mode bit into the noise control byte, as done by the
0x400E case of `apu_cpu_write` in `apu.c`:
`control = (control & 0x7F) | (data & 0x80)`. -/
def noise_set_mode (ch : NoiseChannel) (m : Bool) : NoiseChannel :=
  { ch with control := (ch.control &&& 0x7F) ||| (if m then 0x80 else 0) }

/-- A sequence of noise timer ticks, each preceded by a write selecting
that tick's feedback mode (long or short). -/
def noise_run (ch : NoiseChannel) : List Bool → NoiseChannel
  | [] => ch
  | m :: ms => noise_run (noise_tick_timer (noise_set_mode ch m)) ms

theorem noise_run_lfsr_invariant (ms : List Bool) (ch : NoiseChannel)
    (h0 : ch.lfsr ≠ 0) (hlt : ch.lfsr < 32768) :
    (noise_run ch ms).lfsr ≠ 0 ∧ (noise_run ch ms).lfsr < 32768 := by
  induction ms generalizing ch with
  | nil => exact ⟨h0, hlt⟩
  | cons m ms ih =>
    have hmode : (noise_set_mode ch m).lfsr = ch.lfsr := rfl
    have hstep := noise_tick_timer_lfsr_invariant (noise_set_mode ch m)
      (by rw [hmode]; exact h0) (by rw [hmode]; exact hlt)
    exact ih _ hstep.1 hstep.2

/-- C4: starting from initialization (LFSR seeded to 1), the noise
channel's 15-bit LFSR never becomes 0 under any sequence of timer ticks,
with the feedback mode (long: bit 0 XOR bit 1; short: bit 0 XOR bit 6)
chosen arbitrarily before every tick. -/
theorem C4_noise_lfsr_never_zero :
    apu_power_on.noise.lfsr = 1 ∧
    ∀ ms : List Bool, (noise_run apu_power_on.noise ms).lfsr ≠ 0 :=
  ⟨rfl, fun ms => (noise_run_lfsr_invariant ms apu_power_on.noise
    (by decide) (by decide)).1⟩

/-- The operations of `apu.c` that touch the `DMCChannel` state: a timer
tick, the four DMC register writes (0x4010–0x4013), the enable bit of a
0x4015 write, and a sample fetch delivering byte `b` (the callback's
result, or 0 with no callback bound). -/
inductive DmcOp where
  | tick : DmcOp
  | write4010 (b : Nat) : DmcOp
  | write4011 (b : Nat) : DmcOp
  | write4012 (b : Nat) : DmcOp
  | write4013 (b : Nat) : DmcOp
  | setEnabled (e : Bool) : DmcOp
  | fetch (b : Nat) : DmcOp

/-- Interpretation of a `DmcOp` by the corresponding code in `apu.c`
(`dmc_tick_timer`, the 0x4010–0x4013 cases of `apu_cpu_write`,
`dmc_set_enabled`, and `dmc_fetch_sample`). -/
def dmc_apply (ch : DMCChannel) : DmcOp → DMCChannel
  | .tick => dmc_tick_timer ch
  | .write4010 b =>
      { ch with
        control := b
        irqEnabled := b &&& 0x80 ≠ 0
        loop := b &&& 0x40 ≠ 0
        timer := dmc_rate_table.getD (b &&& 0x0F) 0 }
  | .write4011 b => { ch with directLoad := b &&& 0x7F, outputLevel := b &&& 0x7F }
  | .write4012 b => { ch with sampleAddress := u16 (0xC000 ||| (b <<< 6)) }
  | .write4013 b => { ch with sampleLength := u16 (b * 16 + 1) }
  | .setEnabled e => dmc_set_enabled ch e
  | .fetch b => dmc_fetch_with ch b

/-- A sequence of DMC operations applied in order. -/
def dmc_run (ch : DMCChannel) : List DmcOp → DMCChannel
  | [] => ch
  | op :: ops => dmc_run (dmc_apply ch op) ops

theorem dmc_shift_bit_outputLevel_le (ch : DMCChannel) (h : ch.outputLevel ≤ 127) :
    (dmc_shift_bit ch).outputLevel ≤ 127 := by
  simp only [dmc_shift_bit]
  split_ifs <;> (try simp) <;> omega

theorem dmc_tick_timer_outputLevel_le (ch : DMCChannel) (h : ch.outputLevel ≤ 127) :
    (dmc_tick_timer ch).outputLevel ≤ 127 := by
  simp only [dmc_tick_timer]
  split_ifs <;>
    first
      | exact dmc_shift_bit_outputLevel_le _ (by simpa using h)
      | simpa using h

theorem dmc_tick_timer_outputLevel_step (ch : DMCChannel) :
    (dmc_tick_timer ch).outputLevel ≤ ch.outputLevel + 2 ∧
    ch.outputLevel ≤ (dmc_tick_timer ch).outputLevel + 2 := by
  simp only [dmc_tick_timer, dmc_shift_bit]
  split_ifs <;> (try simp) <;> omega

theorem dmc_apply_outputLevel_le (ch : DMCChannel) (op : DmcOp) (h : ch.outputLevel ≤ 127) :
    (dmc_apply ch op).outputLevel ≤ 127 := by
  cases op with
  | tick => exact dmc_tick_timer_outputLevel_le ch h
  | write4010 b => exact h
  | write4011 b => simpa using Nat.and_le_right
  | write4012 b => exact h
  | write4013 b => exact h
  | setEnabled e =>
      simp only [dmc_apply, dmc_set_enabled, dmc_restart]
      split_ifs <;> simpa using h
  | fetch b =>
      simp only [dmc_apply, dmc_fetch_with, dmc_restart]
      split_ifs <;> simpa using h

theorem dmc_run_outputLevel_le (ops : List DmcOp) (ch : DMCChannel)
    (h : ch.outputLevel ≤ 127) :
    (dmc_run ch ops).outputLevel ≤ 127 := by
  induction ops generalizing ch with
  | nil => exact h
  | cons op ops ih => exact ih _ (dmc_apply_outputLevel_le ch op h)

/-- C5: the DMC output level always stays within [0, 127]: initialization
gives 0, a timer tick moves the level by at most 2 in either direction
(the +2 branch is guarded by `level ≤ 125` and the −2 branch by
`level ≥ 2`), and from any level in range, any sequence of DMC operations
(ticks, register writes — a 0x4011 direct load stores `b &&& 0x7F ≤ 127` —
enable changes and fetches of arbitrary bytes) leaves the level in
[0, 127]. -/
theorem C5_dmc_output_level_bounded (ch : DMCChannel) (ops : List DmcOp)
    (h : ch.outputLevel ≤ 127) :
    apu_power_on.dmc.outputLevel = 0 ∧
    ((dmc_tick_timer ch).outputLevel ≤ ch.outputLevel + 2 ∧
      ch.outputLevel ≤ (dmc_tick_timer ch).outputLevel + 2) ∧
    (dmc_run ch ops).outputLevel ≤ 127 :=
  ⟨rfl, dmc_tick_timer_outputLevel_step ch, dmc_run_outputLevel_le ops ch h⟩

/-- Concrete DMC channel and operation list witnessing C5. -/
def c5_dmc : DMCChannel :=
  { apu_power_on.dmc with
    outputLevel := 126
    shiftRegister := 0xAB
    bitCount := 5
    sampleBuffer := 0xFF
    sampleBufferEmpty := false
    bytesRemaining := 3 }

theorem C5_witness :
    c5_dmc.outputLevel ≤ 127 ∧
    (apu_power_on.dmc.outputLevel = 0 ∧
     ((dmc_tick_timer c5_dmc).outputLevel ≤ c5_dmc.outputLevel + 2 ∧
       c5_dmc.outputLevel ≤ (dmc_tick_timer c5_dmc).outputLevel + 2) ∧
     (dmc_run c5_dmc
        [DmcOp.tick, DmcOp.fetch 0xFF, DmcOp.tick, DmcOp.write4011 0xFF,
         DmcOp.tick, DmcOp.tick]).outputLevel ≤ 127) :=
  ⟨by decide,
    C5_dmc_output_level_bounded c5_dmc
      [DmcOp.tick, DmcOp.fetch 0xFF, DmcOp.tick, DmcOp.write4011 0xFF,
       DmcOp.tick, DmcOp.tick] (by decide)⟩

/-- C6: writing a pulse channel's timer-high register (0x4003 for pulse 1,
0x4007 for pulse 2) sets that channel's length counter to the length-table
entry indexed by the top 5 bits of the written byte, for every byte; in
particular writing 0x00 to 0x4003 sets pulse 1's length counter to 10
(the table's entry 0). -/
theorem C6_timer_high_write_sets_length (s : APU) (data : Nat) :
    (apu_cpu_write s 0x4003 data).pulse1.lengthCounter =
      apu_length_table.getD ((data >>> 3) &&& 0x1F) 0 ∧
    (apu_cpu_write s 0x4007 data).pulse2.lengthCounter =
      apu_length_table.getD ((data >>> 3) &&& 0x1F) 0 ∧
    (apu_cpu_write s 0x4003 0x00).pulse1.lengthCounter = 10 :=
  ⟨rfl, rfl, rfl⟩

/-- C7: `apu_reset` reinitializes the whole aggregate to the power-on
defaults (pulse 1 in one's-complement sweep mode, noise LFSR = 1, DMC
sample buffer empty, filter and remainder zero, everything else zeroed)
while preserving the read callback and its context, and is therefore
idempotent: two consecutive resets leave exactly the state one reset
leaves. -/
theorem C7_reset_idempotent_preserves_callback (s : APU) :
    apu_reset s = { apu_power_on with read := s.read, readContext := s.readContext } ∧
    apu_reset (apu_reset s) = apu_reset s ∧
    (apu_reset s).read = s.read ∧ (apu_reset s).readContext = s.readContext :=
  ⟨rfl, rfl, rfl, rfl⟩

/-- C8: the status read returns a byte whose bits 0–3 are set exactly when
pulse 1 / pulse 2 / triangle / noise is enabled with a nonzero length
counter, and whose bit 4 is set exactly when the DMC has bytes remaining;
it leaves the APU state unchanged. -/
theorem C8_status_read (s : APU) :
    (apu_read_status s).2 = s ∧
    ((apu_read_status s).1.testBit 0 = true ↔
      (s.pulse1.enabled = true ∧ s.pulse1.lengthCounter > 0)) ∧
    ((apu_read_status s).1.testBit 1 = true ↔
      (s.pulse2.enabled = true ∧ s.pulse2.lengthCounter > 0)) ∧
    ((apu_read_status s).1.testBit 2 = true ↔
      (s.triangle.enabled = true ∧ s.triangle.lengthCounter > 0)) ∧
    ((apu_read_status s).1.testBit 3 = true ↔
      (s.noise.enabled = true ∧ s.noise.lengthCounter > 0)) ∧
    ((apu_read_status s).1.testBit 4 = true ↔ s.dmc.bytesRemaining > 0) := by
  by_cases h1 : s.pulse1.enabled = true ∧ s.pulse1.lengthCounter > 0 <;>
  by_cases h2 : s.pulse2.enabled = true ∧ s.pulse2.lengthCounter > 0 <;>
  by_cases h3 : s.triangle.enabled = true ∧ s.triangle.lengthCounter > 0 <;>
  by_cases h4 : s.noise.enabled = true ∧ s.noise.lengthCounter > 0 <;>
  by_cases h5 : s.dmc.bytesRemaining > 0 <;>
  refine ⟨rfl, ?_, ?_, ?_, ?_, ?_⟩ <;>
  simp [apu_read_status, h1, h2, h3, h4, h5, Nat.testBit_to_div_mod]

/-- The frame-sequencer schedule as the specification words it: after
incrementing the cycle counter, a quarter-frame event fires when the
counter reaches 3729, 7457, 11186 or 14915 (in either mode), a half-frame
event fires when it reaches 7457 or 14915 (in either mode), and the
counter resets to 0 after 14915 in 4-step mode and silently (no event) at
18641 in 5-step mode. -/
def apu_frame_spec (s : APU) : APU :=
  let mode := s.frameCounterMode
  let c := s.frameCounterCycle + 1
  let s1 := { s with frameCounterCycle := c }
  let s2 := if c = 3729 ∨ c = 7457 ∨ c = 11186 ∨ c = 14915 then apu_quarter_frame s1 else s1
  let s3 := if c = 7457 ∨ c = 14915 then apu_half_frame s2 else s2
  if (mode = false ∧ c = 14915) ∨ (mode = true ∧ c = 18641) then
    { s3 with frameCounterCycle := 0 }
  else s3

theorem apu_step_one_eq_frame_spec (s : APU) :
    apu_step_one s = apu_tick_timers (apu_frame_spec s) := by
  by_cases hm : s.frameCounterMode = true <;>
  by_cases h1 : s.frameCounterCycle + 1 = 3729 <;>
  by_cases h2 : s.frameCounterCycle + 1 = 7457 <;>
  by_cases h3 : s.frameCounterCycle + 1 = 11186 <;>
  by_cases h4 : s.frameCounterCycle + 1 = 14915 <;>
  by_cases h5 : s.frameCounterCycle + 1 = 18641 <;>
  first
    | omega
    | simp [apu_step_one, apu_frame_spec, hm, h1, h2, h3, h4, h5]

theorem apu_write_4017_eq (s : APU) (d : Nat) :
    apu_cpu_write s 0x4017 d =
      (let base : APU :=
        { s with
          frameCounterMode := d &&& 0x80 ≠ 0
          frameIrqInhibit := d &&& 0x40 ≠ 0
          frameCounterCycle := 0 }
       if d &&& 0x80 ≠ 0 then apu_quarter_frame (apu_half_frame base) else base) := by
  by_cases hd : d &&& 0x80 ≠ 0 <;>
    simp [apu_cpu_write, apu_quarter_frame, apu_half_frame, hd]

/-- C3: stepping the APU cycle by cycle refines the specified schedule —
quarter-frame events fire exactly when the incremented frame counter
reaches 3729, 7457, 11186 or 14915 and half-frame events only at 7457 and
14915 (both modes alike), the counter resetting to 0 after 14915 in
4-step mode and silently (no event) at 18641 in 5-step mode — and a write
to 0x4017 resets the cycle counter to 0 immediately and fires one
combined quarter+half-frame event synchronously exactly when the written
byte has bit 7 set (5-step mode). -/
theorem C3_frame_sequencer_schedule (s : APU) (d : Nat) :
    apu_step_one s = apu_tick_timers (apu_frame_spec s) ∧
    apu_cpu_write s 0x4017 d =
      (let base : APU :=
        { s with
          frameCounterMode := d &&& 0x80 ≠ 0
          frameIrqInhibit := d &&& 0x40 ≠ 0
          frameCounterCycle := 0 }
       if d &&& 0x80 ≠ 0 then apu_quarter_frame (apu_half_frame base) else base) :=
  ⟨apu_step_one_eq_frame_spec s, apu_write_4017_eq s d⟩

/-- C9: a 0x4015 write with the DMC enable bit (bit 4) set restarts the
sample exactly when the bytes-remaining counter is zero — the fetch
address becomes the configured sample start address and bytes-remaining
becomes the configured sample length — and leaves both untouched when
bytes remain. -/
theorem C9_dmc_enable_restart (s : APU) (data : Nat) (h : data &&& 0x10 ≠ 0) :
    (s.dmc.bytesRemaining = 0 →
      (apu_cpu_write s 0x4015 data).dmc.currentAddress = s.dmc.sampleAddress ∧
      (apu_cpu_write s 0x4015 data).dmc.bytesRemaining = s.dmc.sampleLength) ∧
    (s.dmc.bytesRemaining ≠ 0 →
      (apu_cpu_write s 0x4015 data).dmc.currentAddress = s.dmc.currentAddress ∧
      (apu_cpu_write s 0x4015 data).dmc.bytesRemaining = s.dmc.bytesRemaining) := by
  constructor
  · intro h0
    simp [apu_cpu_write, dmc_set_enabled, dmc_restart, h, h0]
  · intro h0
    simp [apu_cpu_write, dmc_set_enabled, dmc_restart, h, h0]

/-- Concrete APU state witnessing C9: DMC configured with sample address
0xC000 and length 17, no bytes remaining, enabled by writing 0x10. -/
def c9_apu : APU :=
  { apu_power_on with
    dmc := { apu_power_on.dmc with sampleAddress := 0xC000, sampleLength := 17 } }

theorem C9_witness :
    (0x10 : Nat) &&& 0x10 ≠ 0 ∧
    ((c9_apu.dmc.bytesRemaining = 0 →
       (apu_cpu_write c9_apu 0x4015 0x10).dmc.currentAddress = c9_apu.dmc.sampleAddress ∧
       (apu_cpu_write c9_apu 0x4015 0x10).dmc.bytesRemaining = c9_apu.dmc.sampleLength) ∧
     (c9_apu.dmc.bytesRemaining ≠ 0 →
       (apu_cpu_write c9_apu 0x4015 0x10).dmc.currentAddress = c9_apu.dmc.currentAddress ∧
       (apu_cpu_write c9_apu 0x4015 0x10).dmc.bytesRemaining = c9_apu.dmc.bytesRemaining)) :=
  ⟨by decide, C9_dmc_enable_restart c9_apu 0x10 (by decide)⟩

/-- C10: a DMC fetch with the buffer empty and bytes remaining but no
read callback bound does not fail: the buffer is filled with byte 0 and
marked full, and the address advance (with the 0xFFFF→0x8000 wrap), the
bytes-remaining decrement and the loop-restart behaviour are exactly
those of a fetch with a callback bound. -/
theorem C10_dmc_fetch_without_callback (s : APU) (f : Nat → Nat → Nat)
    (hr : s.read = none) (hbuf : s.dmc.sampleBufferEmpty = true)
    (hrem : s.dmc.bytesRemaining ≠ 0) :
    (dmc_fetch_sample s).dmc.sampleBuffer = 0 ∧
    (dmc_fetch_sample s).dmc.sampleBufferEmpty = false ∧
    ((dmc_fetch_sample { s with read := some f }).dmc.currentAddress =
       (dmc_fetch_sample s).dmc.currentAddress ∧
     (dmc_fetch_sample { s with read := some f }).dmc.bytesRemaining =
       (dmc_fetch_sample s).dmc.bytesRemaining ∧
     (dmc_fetch_sample { s with read := some f }).dmc.sampleBufferEmpty =
       (dmc_fetch_sample s).dmc.sampleBufferEmpty ∧
     (dmc_fetch_sample { s with read := some f }).dmc.sampleBuffer =
       f s.readContext s.dmc.currentAddress % 256) ∧
    ((dmc_fetch_sample s).dmc.currentAddress =
       (if s.dmc.bytesRemaining - 1 = 0 ∧ s.dmc.loop = true then s.dmc.sampleAddress
        else if u16 (s.dmc.currentAddress + 1) = 0 then 0x8000
        else u16 (s.dmc.currentAddress + 1)) ∧
     (dmc_fetch_sample s).dmc.bytesRemaining =
       (if s.dmc.bytesRemaining - 1 = 0 ∧ s.dmc.loop = true then s.dmc.sampleLength
        else s.dmc.bytesRemaining - 1)) := by
  simp only [dmc_fetch_sample, hr, dmc_fetch_with, dmc_restart, hbuf]
  split_ifs <;> simp_all

/-- Concrete APU state witnessing C10: no callback bound, buffer empty,
2 bytes remaining, current address 0xFFFF (so the advance exercises the
0xFFFF→0x8000 wrap). -/
def c10_apu : APU :=
  { apu_power_on with
    dmc := { apu_power_on.dmc with bytesRemaining := 2, currentAddress := 0xFFFF } }

/-- The callback used on the bound side of the C10 witness. -/
def c10_read (_ctx _addr : Nat) : Nat := 0xAB

theorem C10_witness :
    c10_apu.read = none ∧ c10_apu.dmc.sampleBufferEmpty = true ∧
    c10_apu.dmc.bytesRemaining ≠ 0 ∧
    ((dmc_fetch_sample c10_apu).dmc.sampleBuffer = 0 ∧
     (dmc_fetch_sample c10_apu).dmc.sampleBufferEmpty = false ∧
     ((dmc_fetch_sample { c10_apu with read := some c10_read }).dmc.currentAddress =
        (dmc_fetch_sample c10_apu).dmc.currentAddress ∧
      (dmc_fetch_sample { c10_apu with read := some c10_read }).dmc.bytesRemaining =
        (dmc_fetch_sample c10_apu).dmc.bytesRemaining ∧
      (dmc_fetch_sample { c10_apu with read := some c10_read }).dmc.sampleBufferEmpty =
        (dmc_fetch_sample c10_apu).dmc.sampleBufferEmpty ∧
      (dmc_fetch_sample { c10_apu with read := some c10_read }).dmc.sampleBuffer =
        c10_read c10_apu.readContext c10_apu.dmc.currentAddress % 256) ∧
     ((dmc_fetch_sample c10_apu).dmc.currentAddress =
        (if c10_apu.dmc.bytesRemaining - 1 = 0 ∧ c10_apu.dmc.loop = true then
           c10_apu.dmc.sampleAddress
         else if u16 (c10_apu.dmc.currentAddress + 1) = 0 then 0x8000
         else u16 (c10_apu.dmc.currentAddress + 1)) ∧
      (dmc_fetch_sample c10_apu).dmc.bytesRemaining =
        (if c10_apu.dmc.bytesRemaining - 1 = 0 ∧ c10_apu.dmc.loop = true then
           c10_apu.dmc.sampleLength
         else c10_apu.dmc.bytesRemaining - 1))) :=
  ⟨rfl, by decide, by decide,
    C10_dmc_fetch_without_callback c10_apu c10_read rfl (by decide) (by decide)⟩
